import Mathlib

/-!
Shallow embedding of the `healthcheck` Go repository
(packages `pkg/config`, `pkg/scraper`, `pkg/healthcheck`).

Pure data and control flow are translated directly from the Go source:
machine `int` becomes `Int` (no arithmetic here can overflow), Go errors
become `Except String` / `Option String`, and the I/O boundary (the HTTP
client, the JSON decoder, the environment) is passed in as an explicit
outcome value, so that every branch of the Go functions is a branch of the
Lean definitions.
-/

namespace Healthcheck

/-! ## pkg/config (config.go) -/

/-- `config.HealthcheckScraper`: one probe spec, as decoded from the
`HEALTHCHECK_SCRAPERS` JSON array. -/
structure HealthcheckScraper where
  «Type» : String
  ScrapeURL : String
  PingURL : String
  ScrapeIntervalSeconds : Int
deriving Repr, DecidableEq

/-- `config.Config`. -/
structure Config where
  Scrapers : List HealthcheckScraper
deriving Repr, DecidableEq

/-- `config.NewConfig`.  `env` is the value of `os.Getenv("HEALTHCHECK_SCRAPERS")`
(Go's `os.Getenv` returns `""` both when the variable is unset and when it is
set to the empty string, so a single `String` is the faithful input type).
`parse` stands for `json.Unmarshal` into `[]HealthcheckScraper`, the one
stdlib call the function makes; `NewConfig` is parametric in it and only
inspects whether it succeeded. -/
def NewConfig (parse : String → Except String (List HealthcheckScraper))
    (env : String) : Except String Config :=
  if env ≠ "" then
    match parse env with
    | .error e => .error ("failed to parse HEALTHCHECK_SCRAPERS JSON: " ++ e)
    | .ok l => .ok { Scrapers := l }
  else
    .ok { Scrapers := [] }

/-! ## pkg/scraper (cloudflared_tunnel.go, types.go) -/

/-- `scraper.CloudflaredTunnelResponse`: the decoded `/ready` body. -/
structure CloudflaredTunnelResponse where
  status : Int
  readyConnections : Int
  connectorId : String
deriving Repr, DecidableEq

/-- A value of the Go `map[string]interface{}` used in `ScrapeResult.Details`;
the source only ever stores `int` and `string` values there. -/
inductive Detail where
  | int : Int → Detail
  | str : String → Detail
deriving Repr, DecidableEq

/-- `scraper.ScrapeResult`.  `Details` is the association list the source
builds literally (Go map literals with distinct string keys). -/
structure ScrapeResult where
  Healthy : Bool
  Message : String
  Timestamp : Nat
  Details : List (String × Detail)
deriving Repr, DecidableEq

/-- `scraper.CloudflaredTunnelScraper` (the logger and the `http.Client`
carry no decidable state beyond the constant 10s timeout and are omitted). -/
structure CloudflaredTunnelScraper where
  scrapeURL : String
  pingURL : String
  scrapeIntervalSeconds : Int
deriving Repr, DecidableEq

/-- `scraper.NewCloudflaredTunnelScraper`: defaults a non-positive interval
to 30 seconds. -/
def NewCloudflaredTunnelScraper (scrapeURL pingURL : String)
    (scrapeIntervalSeconds : Int) : CloudflaredTunnelScraper :=
  let i := if scrapeIntervalSeconds ≤ 0 then 30 else scrapeIntervalSeconds
  { scrapeURL := scrapeURL, pingURL := pingURL, scrapeIntervalSeconds := i }

/-- `(*CloudflaredTunnelScraper).GetScrapeInterval`. -/
def GetScrapeInterval (c : CloudflaredTunnelScraper) : Int :=
  c.scrapeIntervalSeconds

/-- `(*CloudflaredTunnelScraper).GetPingURL`. -/
def GetPingURL (c : CloudflaredTunnelScraper) : String :=
  c.pingURL

/-- The outcome of the I/O that `Scrape` performs, point by point:
`http.NewRequestWithContext` may fail (`reqError`), `client.Do` may fail
(`connError`), or a response arrives with a status code and a body whose
JSON decoding into `CloudflaredTunnelResponse` succeeds or fails. -/
inductive HttpOutcome where
  | reqError : String → HttpOutcome
  | connError : String → HttpOutcome
  | response : Int → Except String CloudflaredTunnelResponse → HttpOutcome
deriving Repr

/-- `(*CloudflaredTunnelScraper).Scrape`, branch for branch from the source:
request-construction failure is the only hard error; transport failure,
non-200 status and parse failure each produce an unhealthy `ScrapeResult`
with `nil` error; a parsed body yields
`healthy := status == 200 && readyConnections > 0` with the two message
formats and the three-field details map.  `now` is `time.Now()`. -/
def Scrape (scrapeURL : String) (now : Nat) :
    HttpOutcome → Except String ScrapeResult
  | .reqError e => .error ("failed to create request: " ++ e)
  | .connError e =>
      .ok { Healthy := false
            Message := "Failed to connect to " ++ scrapeURL ++ ": " ++ e
            Timestamp := now
            Details := [("error", .str e)] }
  | .response statusCode body =>
      if statusCode ≠ 200 then
        .ok { Healthy := false
              Message := "HTTP status " ++ toString statusCode ++ " from " ++ scrapeURL
              Timestamp := now
              Details := [("status_code", .int statusCode)] }
      else
        match body with
        | .error e =>
            .ok { Healthy := false
                  Message := "Failed to parse response from " ++ scrapeURL ++ ": " ++ e
                  Timestamp := now
                  Details := [("error", .str e)] }
        | .ok tunnelResp =>
            let healthy : Bool :=
              decide (tunnelResp.status = 200) && decide (0 < tunnelResp.readyConnections)
            let message : String :=
              if healthy then
                "Tunnel healthy with " ++ toString tunnelResp.readyConnections
                  ++ " ready connections"
              else
                "Tunnel unhealthy: status=" ++ toString tunnelResp.status
                  ++ ", readyConnections=" ++ toString tunnelResp.readyConnections
            .ok { Healthy := healthy
                  Message := message
                  Timestamp := now
                  Details := [("status", .int tunnelResp.status),
                              ("readyConnections", .int tunnelResp.readyConnections),
                              ("connectorId", .str tunnelResp.connectorId)] }

/-- `(*Factory).CreateScraper`: dispatch on the spec's kind string. -/
def CreateScraper (scraperConfig : HealthcheckScraper) :
    Except String CloudflaredTunnelScraper :=
  if scraperConfig.«Type» = "cloudflared-tunnel-connector" then
    .ok (NewCloudflaredTunnelScraper scraperConfig.ScrapeURL scraperConfig.PingURL
          scraperConfig.ScrapeIntervalSeconds)
  else
    .error ("unknown scraper type: " ++ scraperConfig.«Type»)

/-! ## pkg/healthcheck (manager.go), `Initialize` -/

/-- The loop body of `(*Manager).Initialize`: `acc` is the manager's
`m.scrapers` slice (empty on a fresh manager).  A factory error returns at
once, leaving `m.scrapers` as accumulated so far; success appends and
continues.  Result: the final `m.scrapers` and the returned error. -/
def initializeLoop (acc : List CloudflaredTunnelScraper) :
    List HealthcheckScraper → List CloudflaredTunnelScraper × Option String
  | [] => (acc, none)
  | scraperConfig :: rest =>
      match CreateScraper scraperConfig with
      | .error e =>
          (acc, some ("failed to create scraper " ++ scraperConfig.«Type» ++ ": " ++ e))
      | .ok s => initializeLoop (acc ++ [s]) rest

/-- `(*Manager).Initialize` on a fresh manager (whose `scrapers` slice is
nil): returns the manager's probe set after the call together with the
returned error, if any. -/
def Initialize (scraperConfigs : List HealthcheckScraper) :
    List CloudflaredTunnelScraper × Option String :=
  initializeLoop [] scraperConfigs

/-! ## pkg/healthcheck (manager.go), `Start` / `Stop` / `healthcheckLoop`

The manager's concurrency is embedded as an interleaving transition system
whose atomic steps are exactly the synchronisation points of the Go code.
After `Initialize` and `Start` with `n` scrapers the live goroutines are:

* the `healthcheckLoop` goroutine — the only one registered with `m.wg`
  (`m.wg.Add(1)` in `Start`); it spawns the per-scraper goroutines and then
  blocks on `<-m.stopChan`;
* one ticker goroutine per scraper, spawned by `healthcheckLoop` *without*
  a `wg.Add`, looping `select { case <-ticker.C: m.runSingleHealthcheck(s);
  case <-m.stopChan: return }` — note the tick branch calls
  `runSingleHealthcheck` synchronously, so while a check is in flight that
  goroutine is inside the call, not at the `select`;
* `Stop` runs `close(m.stopChan)` then `m.wg.Wait()` and returns.

The initial per-scraper check (`go m.runSingleHealthcheck(s)`) is
fire-and-forget and touches none of the state below, so it is not modelled.
-/

/-- The control point of one ticker goroutine: at its `select` (`idle`),
inside a synchronous `runSingleHealthcheck` call (`busy`), or returned
(`exited`). -/
inductive TickerState where
  | idle
  | busy
  | exited
deriving Repr, DecidableEq

/-- The shared state of the manager's goroutines after `Start`. -/
structure MgrState where
  /-- whether `close(m.stopChan)` has happened. -/
  stopClosed : Bool
  /-- the `m.wg` counter (`Add(1)` once in `Start`, `Done` once in
  `healthcheckLoop`). -/
  wgCount : Nat
  /-- whether the `healthcheckLoop` goroutine is still running. -/
  loopAlive : Bool
  /-- control point of each per-scraper ticker goroutine. -/
  tickers : List TickerState
  /-- whether `Stop()` has returned to its caller. -/
  stopReturned : Bool
deriving Repr, DecidableEq

/-- Labels naming each atomic step of the system. -/
inductive MgrLabel where
  | closeStop
  | loopObserveStop
  | tick : Nat → MgrLabel
  | checkDone : Nat → MgrLabel
  | tickerObserveStop : Nat → MgrLabel
  | stopReturn
deriving Repr, DecidableEq

/-- One atomic step of the manager's goroutines.  Guards and effects follow
the Go statements named in each constructor's comment. -/
inductive MgrStep : MgrLabel → MgrState → MgrState → Prop where
  /-- `Stop`: `close(m.stopChan)` (a channel may be closed once). -/
  | closeStop {s : MgrState} :
      s.stopClosed = false →
      MgrStep .closeStop s { s with stopClosed := true }
  /-- `healthcheckLoop`: `<-m.stopChan` unblocks after the close; the
  deferred `ticker.Stop()` and `m.wg.Done()` run and the goroutine exits. -/
  | loopObserveStop {s : MgrState} :
      s.stopClosed = true → s.loopAlive = true →
      MgrStep .loopObserveStop s
        { s with loopAlive := false, wgCount := s.wgCount - 1 }
  /-- ticker goroutine `i`: the `select` takes `<-ticker.C` and enters the
  synchronous `m.runSingleHealthcheck(scraper)` call.  Requires the goroutine
  at its `select` and the tickers not yet stopped (they are stopped by
  `healthcheckLoop`'s deferred `ticker.Stop()` when it exits). -/
  | tick {s : MgrState} {i : Nat} :
      s.loopAlive = true → s.tickers.get? i = some .idle →
      MgrStep (.tick i) s { s with tickers := s.tickers.set i .busy }
  /-- ticker goroutine `i`: `runSingleHealthcheck` returns (bounded by its
  30s context deadline) and the goroutine is back at its `select`. -/
  | checkDone {s : MgrState} {i : Nat} :
      s.tickers.get? i = some .busy →
      MgrStep (.checkDone i) s { s with tickers := s.tickers.set i .idle }
  /-- ticker goroutine `i`: the `select` takes `<-m.stopChan` (ready once
  closed) and the goroutine returns. -/
  | tickerObserveStop {s : MgrState} {i : Nat} :
      s.stopClosed = true → s.tickers.get? i = some .idle →
      MgrStep (.tickerObserveStop i) s { s with tickers := s.tickers.set i .exited }
  /-- `Stop`: `m.wg.Wait()` unblocks because the counter is zero, and
  `Stop` returns. -/
  | stopReturn {s : MgrState} :
      s.stopClosed = true → s.wgCount = 0 → s.stopReturned = false →
      MgrStep .stopReturn s { s with stopReturned := true }

/-- Reflexive-transitive closure: an interleaved execution. -/
inductive Reaches : MgrState → MgrState → Prop where
  | refl {s : MgrState} : Reaches s s
  | step {s t u : MgrState} {l : MgrLabel} :
      MgrStep l s t → Reaches t u → Reaches s u

/-- The state right after `Start()` on a manager holding `n` scrapers:
stop channel open, `wg` counter 1 (the loop goroutine), loop running, every
ticker goroutine at its `select`, `Stop` not yet returned. -/
def startState (n : Nat) : MgrState :=
  { stopClosed := false
    wgCount := 1
    loopAlive := true
    tickers := List.replicate n .idle
    stopReturned := false }

/-- Whether ticker goroutine `i` can take a tick in state `s` (the guard of
`MgrStep.tick`, as a decidable predicate). -/
def tickEnabled (s : MgrState) (i : Nat) : Bool :=
  s.loopAlive && (s.tickers.get? i == some .idle)

/-- Whether ticker goroutine `i` can observe the stop signal in state `s`
(the guard of `MgrStep.tickerObserveStop`). -/
def stopObsEnabled (s : MgrState) (i : Nat) : Bool :=
  s.stopClosed && (s.tickers.get? i == some .idle)

theorem tickEnabled_iff (s : MgrState) (i : Nat) :
    tickEnabled s i = true ↔ ∃ t, MgrStep (.tick i) s t := by
  constructor
  · intro h
    simp only [tickEnabled, Bool.and_eq_true, beq_iff_eq] at h
    exact ⟨_, MgrStep.tick h.1 h.2⟩
  · rintro ⟨t, h⟩
    cases h with
    | tick h1 h2 =>
        rw [List.get?_eq_getElem?] at h2
        simp [tickEnabled, h1, h2]

theorem stopObsEnabled_iff (s : MgrState) (i : Nat) :
    stopObsEnabled s i = true ↔ ∃ t, MgrStep (.tickerObserveStop i) s t := by
  constructor
  · intro h
    simp only [stopObsEnabled, Bool.and_eq_true, beq_iff_eq] at h
    exact ⟨_, MgrStep.tickerObserveStop h.1 h.2⟩
  · rintro ⟨t, h⟩
    cases h with
    | tickerObserveStop h1 h2 =>
        rw [List.get?_eq_getElem?] at h2
        simp [stopObsEnabled, h1, h2]

/-- The wait-group/loop bookkeeping that every reachable state satisfies:
the `wg` counter is 1 exactly while the loop goroutine runs, the loop only
exits after the stop signal, and `Stop` only returns after the signal was
raised and the loop goroutine exited. -/
def StopInv (s : MgrState) : Prop :=
  (s.loopAlive = true → s.wgCount = 1) ∧
  (s.loopAlive = false → s.wgCount = 0 ∧ s.stopClosed = true) ∧
  (s.stopReturned = true → s.stopClosed = true ∧ s.loopAlive = false)

theorem stopInv_start (n : Nat) : StopInv (startState n) := by
  refine ⟨fun _ => rfl, fun h => by simp [startState] at h, fun h => by simp [startState] at h⟩

theorem stopInv_step {l : MgrLabel} {s t : MgrState}
    (hstep : MgrStep l s t) (hinv : StopInv s) : StopInv t := by
  obtain ⟨h1, h2, h3⟩ := hinv
  cases hstep with
  | closeStop h =>
      exact ⟨h1, fun ha => ⟨(h2 ha).1, rfl⟩, fun hr => ⟨rfl, (h3 hr).2⟩⟩
  | loopObserveStop hc ha =>
      refine ⟨fun h => by simp at h, fun _ => ⟨by simp [h1 ha], hc⟩, fun hr => ?_⟩
      exact absurd ((h3 hr).2) (by simp [ha])
  | tick hl hi => exact ⟨h1, h2, h3⟩
  | checkDone hi => exact ⟨h1, h2, h3⟩
  | tickerObserveStop hc hi => exact ⟨h1, h2, h3⟩
  | stopReturn hc hw hr =>
      have hla : s.loopAlive = false := by
        cases hla : s.loopAlive with
        | true => exact absurd (h1 hla) (by simp [hw])
        | false => rfl
      exact ⟨h1, h2, fun _ => ⟨hc, hla⟩⟩

theorem reaches_stopInv {s t : MgrState} (h : Reaches s t) (hinv : StopInv s) :
    StopInv t := by
  induction h with
  | refl => exact hinv
  | step hstep _ ih => exact ih (stopInv_step hstep hinv)

/-- Index `a` of `exited^a ++ idle :: idle^b` holds `idle`. -/
theorem replicate_get_mid (a b : Nat) :
    (List.replicate a TickerState.exited
      ++ TickerState.idle :: List.replicate b TickerState.idle).get? a
      = some TickerState.idle := by
  induction a with
  | zero => rfl
  | succ a ih => simpa [List.replicate_succ] using ih

/-- Marking index `a` of `exited^a ++ idle :: idle^b` as exited yields
`exited^(a+1) ++ idle^b`. -/
theorem replicate_set_mid (a b : Nat) :
    (List.replicate a TickerState.exited
      ++ TickerState.idle :: List.replicate b TickerState.idle).set a TickerState.exited
      = List.replicate (a + 1) TickerState.exited ++ List.replicate b TickerState.idle := by
  have h : (List.replicate a TickerState.exited
      ++ TickerState.idle :: List.replicate b TickerState.idle).set a TickerState.exited
      = List.replicate a TickerState.exited
        ++ TickerState.exited :: List.replicate b TickerState.idle := by
    induction a with
    | zero => rfl
    | succ a _ => simp [List.replicate_succ]
  rw [h, List.replicate_succ', List.append_assoc]
  rfl

/-- After the stop signal, the still-idle ticker goroutines can all observe
it and exit, one after the other. -/
theorem reaches_exit_all (b : Nat) :
    ∀ (a : Nat) (s : MgrState), s.stopClosed = true →
    s.tickers = List.replicate a TickerState.exited ++ List.replicate b TickerState.idle →
    Reaches s { s with tickers := List.replicate (a + b) TickerState.exited } := by
  induction b with
  | zero =>
      intro a s _ ht
      have hs : List.replicate (a + 0) TickerState.exited = s.tickers := by
        simpa using ht.symm
      rw [hs]
      exact .refl
  | succ b ih =>
      intro a s hc ht
      have hmid : s.tickers.get? a = some TickerState.idle := by
        rw [ht, List.replicate_succ]
        exact replicate_get_mid a b
      have hstep : MgrStep (.tickerObserveStop a) s
          { s with tickers := s.tickers.set a TickerState.exited } :=
        MgrStep.tickerObserveStop hc hmid
      have hset : s.tickers.set a TickerState.exited
          = List.replicate (a + 1) TickerState.exited ++ List.replicate b TickerState.idle := by
        rw [ht, List.replicate_succ]
        exact replicate_set_mid a b
      have hrest : Reaches { s with tickers := s.tickers.set a TickerState.exited }
          { s with tickers := List.replicate (a + 1 + b) TickerState.exited } :=
        ih (a + 1) _ hc hset
      have harith : a + 1 + b = a + (b + 1) := by omega
      rw [harith] at hrest
      exact .step hstep hrest

/-- The fully-stopped state: signal raised, loop goroutine exited (`wg`
drained), every ticker goroutine exited, `Stop` returned. -/
def stoppedState (n : Nat) : MgrState :=
  { stopClosed := true
    wgCount := 0
    loopAlive := false
    tickers := List.replicate n TickerState.exited
    stopReturned := true }

/-- From the post-`Start` state, `close(stopChan)`, the loop's exit,
`wg.Wait()` returning and every ticker goroutine's exit form an execution:
`Stop` can always complete and every scheduling goroutine can always wind
down — the system has no deadlock. -/
theorem reaches_stopped (n : Nat) : Reaches (startState n) (stoppedState n) := by
  have s1 : MgrStep .closeStop (startState n)
      ⟨true, 1, true, List.replicate n .idle, false⟩ :=
    MgrStep.closeStop rfl
  have s2 : MgrStep .loopObserveStop
      (⟨true, 1, true, List.replicate n .idle, false⟩ : MgrState)
      ⟨true, 0, false, List.replicate n .idle, false⟩ :=
    MgrStep.loopObserveStop rfl rfl
  have s3 : MgrStep .stopReturn
      (⟨true, 0, false, List.replicate n .idle, false⟩ : MgrState)
      ⟨true, 0, false, List.replicate n .idle, true⟩ :=
    MgrStep.stopReturn rfl rfl rfl
  have s4 : Reaches (⟨true, 0, false, List.replicate n .idle, true⟩ : MgrState)
      (stoppedState n) := by
    have h := reaches_exit_all n 0
      ⟨true, 0, false, List.replicate n .idle, true⟩ rfl (by simp)
    rw [Nat.zero_add] at h
    exact h
  exact .step s1 (.step s2 (.step s3 s4))

/-! ## Branch equations for `Scrape` (shared helper lemmas) -/

theorem scrape_connError_eq (scrapeURL : String) (now : Nat) (e : String) :
    Scrape scrapeURL now (.connError e)
      = .ok { Healthy := false
              Message := "Failed to connect to " ++ scrapeURL ++ ": " ++ e
              Timestamp := now
              Details := [("error", .str e)] } := rfl

theorem scrape_non200_eq (scrapeURL : String) (now : Nat) (statusCode : Int)
    (body : Except String CloudflaredTunnelResponse) (h : statusCode ≠ 200) :
    Scrape scrapeURL now (.response statusCode body)
      = .ok { Healthy := false
              Message := "HTTP status " ++ toString statusCode ++ " from " ++ scrapeURL
              Timestamp := now
              Details := [("status_code", .int statusCode)] } := by
  simp [Scrape, h]

theorem scrape_parseError_eq (scrapeURL : String) (now : Nat) (e : String) :
    Scrape scrapeURL now (.response 200 (.error e))
      = .ok { Healthy := false
              Message := "Failed to parse response from " ++ scrapeURL ++ ": " ++ e
              Timestamp := now
              Details := [("error", .str e)] } := by
  simp [Scrape]

theorem scrape_parsed_eq (scrapeURL : String) (now : Nat)
    (t : CloudflaredTunnelResponse) :
    Scrape scrapeURL now (.response 200 (.ok t))
      = .ok { Healthy := decide (t.status = 200) && decide (0 < t.readyConnections)
              Message :=
                if decide (t.status = 200) && decide (0 < t.readyConnections) then
                  "Tunnel healthy with " ++ toString t.readyConnections
                    ++ " ready connections"
                else
                  "Tunnel unhealthy: status=" ++ toString t.status
                    ++ ", readyConnections=" ++ toString t.readyConnections
              Timestamp := now
              Details := [("status", .int t.status),
                          ("readyConnections", .int t.readyConnections),
                          ("connectorId", .str t.connectorId)] } := by
  simp [Scrape]

theorem scrape_error_inv (scrapeURL : String) (now : Nat) (o : HttpOutcome)
    (r : String) (h : Scrape scrapeURL now o = .error r) :
    ∃ msg, o = .reqError msg ∧ r = "failed to create request: " ++ msg := by
  cases o with
  | reqError e =>
      refine ⟨e, rfl, ?_⟩
      simpa [Scrape] using h.symm
  | connError e => simp [scrape_connError_eq] at h
  | response statusCode body =>
      by_cases hsc : statusCode = 200
      · subst hsc
        cases body with
        | error e => simp [scrape_parseError_eq] at h
        | ok t => simp [scrape_parsed_eq] at h
      · simp [scrape_non200_eq scrapeURL now statusCode body hsc] at h

/-! ## Claims about `Scrape` -/

/-- C1: when the GET succeeds with outer status 200 and the body parses,
the result is healthy with message "Tunnel healthy with {n} ready
connections" exactly when the parsed status is 200 and
`readyConnections > 0`, otherwise unhealthy with message
"Tunnel unhealthy: status={s}, readyConnections={n}"; in both cases the
details carry the parsed `status`, `readyConnections` and `connectorId`. -/
theorem scrape_parsed_body_health (scrapeURL : String) (now : Nat)
    (t : CloudflaredTunnelResponse) :
    ∃ r, Scrape scrapeURL now (.response 200 (.ok t)) = .ok r ∧
      (r.Healthy = true ↔ (t.status = 200 ∧ 0 < t.readyConnections)) ∧
      (r.Healthy = true →
        r.Message = "Tunnel healthy with " ++ toString t.readyConnections
          ++ " ready connections") ∧
      (r.Healthy = false →
        r.Message = "Tunnel unhealthy: status=" ++ toString t.status
          ++ ", readyConnections=" ++ toString t.readyConnections) ∧
      r.Details = [("status", .int t.status),
                   ("readyConnections", .int t.readyConnections),
                   ("connectorId", .str t.connectorId)] := by
  refine ⟨_, scrape_parsed_eq scrapeURL now t, ?_, ?_, ?_, rfl⟩
  · simp
  · intro h
    simp only [h]
    simp only [Bool.and_eq_true, decide_eq_true_eq] at h
    simp [h]
  · intro h
    simp only [Bool.and_eq_true] at h
    simp [h]

/-- C1 witness: the healthy case of the repository's own test payload
`{"status":200,"readyConnections":4,"connectorId":"test-id"}`. -/
theorem scrape_parsed_body_health_witness :
    ∃ r, Scrape "http://localhost:8080/ready" 17
        (.response 200 (.ok ⟨200, 4, "test-id"⟩)) = .ok r ∧
      r.Healthy = true ∧
      r.Message = "Tunnel healthy with " ++ toString (4 : Int) ++ " ready connections" := by
  obtain ⟨r, hr, hiff, hmsg, _, _⟩ :=
    scrape_parsed_body_health "http://localhost:8080/ready" 17 ⟨200, 4, "test-id"⟩
  have hh : r.Healthy = true := hiff.mpr ⟨rfl, by decide⟩
  exact ⟨r, hr, hh, hmsg hh⟩

/-- C2: transport errors, non-200 statuses and parse failures all yield a
result (`nil` Go error) that is unhealthy with the respective message
format; a hard error arises only from request construction. -/
theorem scrape_ordinary_failures (scrapeURL : String) (now : Nat) :
    (∀ e, Scrape scrapeURL now (.connError e)
        = .ok { Healthy := false
                Message := "Failed to connect to " ++ scrapeURL ++ ": " ++ e
                Timestamp := now
                Details := [("error", .str e)] }) ∧
    (∀ statusCode body, statusCode ≠ 200 →
      Scrape scrapeURL now (.response statusCode body)
        = .ok { Healthy := false
                Message := "HTTP status " ++ toString statusCode ++ " from " ++ scrapeURL
                Timestamp := now
                Details := [("status_code", .int statusCode)] }) ∧
    (∀ e, Scrape scrapeURL now (.response 200 (.error e))
        = .ok { Healthy := false
                Message := "Failed to parse response from " ++ scrapeURL ++ ": " ++ e
                Timestamp := now
                Details := [("error", .str e)] }) ∧
    (∀ o r, Scrape scrapeURL now o = .error r →
      ∃ msg, o = .reqError msg ∧ r = "failed to create request: " ++ msg) := by
  exact ⟨scrape_connError_eq scrapeURL now,
         fun statusCode body h => scrape_non200_eq scrapeURL now statusCode body h,
         scrape_parseError_eq scrapeURL now,
         fun o r h => scrape_error_inv scrapeURL now o r h⟩

/-- C2 witness: a refused connection and an HTTP 500 each produce a
non-error unhealthy result with the source's message strings. -/
theorem scrape_ordinary_failures_witness :
    Scrape "http://localhost:8080/ready" 0 (.connError "connection refused")
      = .ok { Healthy := false
              Message := "Failed to connect to http://localhost:8080/ready: connection refused"
              Timestamp := 0
              Details := [("error", .str "connection refused")] } ∧
    Scrape "http://localhost:8080/ready" 0 (.response 500 (.error "EOF"))
      = .ok { Healthy := false
              Message := "HTTP status 500 from http://localhost:8080/ready"
              Timestamp := 0
              Details := [("status_code", .int 500)] } := by
  constructor
  · exact (scrape_ordinary_failures "http://localhost:8080/ready" 0).1 "connection refused"
  · exact (scrape_ordinary_failures "http://localhost:8080/ready" 0).2.1 500
      (.error "EOF") (by decide)

/-- C9: on an outer non-200 status the details map holds exactly the single
key `"status_code"` with that status code — no `"error"` entry and none of
the parsed tunnel fields. -/
theorem scrape_non200_details (scrapeURL : String) (now : Nat) (statusCode : Int)
    (body : Except String CloudflaredTunnelResponse) (h : statusCode ≠ 200) :
    ∃ r, Scrape scrapeURL now (.response statusCode body) = .ok r ∧
      r.Details = [("status_code", .int statusCode)] ∧
      r.Details.map Prod.fst = ["status_code"] := by
  exact ⟨_, scrape_non200_eq scrapeURL now statusCode body h, rfl, rfl⟩

/-- C9 witness: outer status 500 with an undecoded body. -/
theorem scrape_non200_details_witness :
    ∃ r, Scrape "http://localhost:8080/ready" 3 (.response 500 (.error "unread"))
        = .ok r ∧
      r.Details = [("status_code", .int 500)] ∧
      r.Details.map Prod.fst = ["status_code"] :=
  scrape_non200_details "http://localhost:8080/ready" 3 500 (.error "unread") (by decide)

/-! ## Claims about the factory and the constructor -/

/-- C3: `CreateScraper` on the literal kind `"cloudflared-tunnel-connector"`
returns a probe and never errors (the URL strings are never inspected); on
any other kind it returns no probe and an error whose message contains the
offending kind string. -/
theorem createScraper_dispatch (c : HealthcheckScraper) :
    (c.«Type» = "cloudflared-tunnel-connector" →
      CreateScraper c
        = .ok (NewCloudflaredTunnelScraper c.ScrapeURL c.PingURL c.ScrapeIntervalSeconds)) ∧
    (c.«Type» ≠ "cloudflared-tunnel-connector" →
      CreateScraper c = .error ("unknown scraper type: " ++ c.«Type») ∧
      ∃ p q, "unknown scraper type: " ++ c.«Type» = p ++ c.«Type» ++ q) := by
  unfold CreateScraper
  by_cases h : c.«Type» = "cloudflared-tunnel-connector" <;> simp [h]
  exact ⟨"unknown scraper type: ", "", by simp⟩

/-- C3 witness: the repository's two test specs — the known kind builds a
probe, the kind `"unknown-scraper-type"` errors with it in the message. -/
theorem createScraper_dispatch_witness :
    CreateScraper ⟨"cloudflared-tunnel-connector", "http://localhost:8080/ready",
        "http://localhost:8081/ping", 120⟩
      = .ok (NewCloudflaredTunnelScraper "http://localhost:8080/ready"
          "http://localhost:8081/ping" 120) ∧
    CreateScraper ⟨"unknown-scraper-type", "http://localhost:8080/ready",
        "http://localhost:8081/ping", 0⟩
      = .error ("unknown scraper type: " ++ "unknown-scraper-type") :=
  ⟨(createScraper_dispatch _).1 rfl, ((createScraper_dispatch _).2 (by decide)).1⟩

/-- C4: a non-positive configured interval is defaulted to 30 at
construction, a positive one is kept exactly, so every constructed probe
has a positive scrape interval. -/
theorem interval_defaulting (scrapeURL pingURL : String) (i : Int) :
    (i ≤ 0 → GetScrapeInterval (NewCloudflaredTunnelScraper scrapeURL pingURL i) = 30) ∧
    (0 < i → GetScrapeInterval (NewCloudflaredTunnelScraper scrapeURL pingURL i) = i) ∧
    0 < GetScrapeInterval (NewCloudflaredTunnelScraper scrapeURL pingURL i) := by
  unfold NewCloudflaredTunnelScraper GetScrapeInterval
  by_cases h : i ≤ 0
  · simp [h]
  · simp [h]
    omega

/-- C4 witness: intervals −10 and 0 default to 30; interval 120 is kept. -/
theorem interval_defaulting_witness :
    GetScrapeInterval (NewCloudflaredTunnelScraper "http://localhost:8080/ready"
        "http://localhost:8081/ping" (-10)) = 30 ∧
    GetScrapeInterval (NewCloudflaredTunnelScraper "http://localhost:8080/ready"
        "http://localhost:8081/ping" 0) = 30 ∧
    GetScrapeInterval (NewCloudflaredTunnelScraper "http://localhost:8080/ready"
        "http://localhost:8081/ping" 120) = 120 :=
  ⟨(interval_defaulting _ _ (-10)).1 (by decide),
   (interval_defaulting _ _ 0).1 (by decide),
   (interval_defaulting _ _ 120).2.1 (by decide)⟩

/-! ## Claims about `NewConfig` -/

/-- C8: a set, non-empty `HEALTHCHECK_SCRAPERS` that fails to unmarshal is
a fatal startup error (an error value, no config); an unset variable or one
decoding to an empty array yields a config with no scrapers. -/
theorem newConfig_malformed_fatal
    (parse : String → Except String (List HealthcheckScraper)) (env e : String) :
    (env ≠ "" → parse env = .error e →
      NewConfig parse env
        = .error ("failed to parse HEALTHCHECK_SCRAPERS JSON: " ++ e)) ∧
    NewConfig parse "" = .ok { Scrapers := [] } ∧
    (env ≠ "" → parse env = .ok [] → NewConfig parse env = .ok { Scrapers := [] }) :=
  ⟨fun hne hp => by simp [NewConfig, hne, hp], rfl,
   fun hne hp => by simp [NewConfig, hne, hp]⟩

/-- C8 witness: instantiated at a concrete unmarshaller that rejects
`"invalid json"` and accepts `"[]"` as the empty array. -/
theorem newConfig_malformed_fatal_witness :
    NewConfig (fun s => if s = "[]" then .ok [] else .error "invalid character")
        "invalid json"
      = .error ("failed to parse HEALTHCHECK_SCRAPERS JSON: " ++ "invalid character") ∧
    NewConfig (fun s => if s = "[]" then .ok [] else .error "invalid character") ""
      = .ok { Scrapers := [] } ∧
    NewConfig (fun s => if s = "[]" then .ok [] else .error "invalid character") "[]"
      = .ok { Scrapers := [] } := by
  refine ⟨?_, ?_, ?_⟩
  · exact (newConfig_malformed_fatal _ "invalid json" "invalid character").1
      (by decide) (if_neg (by decide))
  · exact (newConfig_malformed_fatal _ "" "invalid character").2.1
  · exact (newConfig_malformed_fatal _ "[]" "invalid character").2.2
      (by decide) (if_pos rfl)

/-- C10: `NewConfig` errors exactly when the environment variable is a
non-empty string the unmarshaller rejects; the empty string (which Go's
`os.Getenv` also returns when the variable is unset, so the two cases are
one and the same input) yields an empty scraper list and no error. -/
theorem newConfig_error_iff
    (parse : String → Except String (List HealthcheckScraper)) (env : String) :
    ((∃ e, NewConfig parse env = .error e) ↔
      (env ≠ "" ∧ ∃ e, parse env = .error e)) ∧
    NewConfig parse "" = .ok { Scrapers := [] } := by
  constructor
  · constructor
    · rintro ⟨e, he⟩
      by_cases hne : env = ""
      · subst hne
        simp [NewConfig] at he
      · refine ⟨hne, ?_⟩
        simp only [NewConfig, if_pos hne] at he
        · cases hp : parse env with
          | error e2 => exact ⟨e2, rfl⟩
          | ok l => rw [hp] at he; simp at he
    · rintro ⟨hne, e, hp⟩
      exact ⟨"failed to parse HEALTHCHECK_SCRAPERS JSON: " ++ e,
        by simp [NewConfig, hne, hp]⟩
  · rfl

/-- C10 witness: at a concrete rejecting unmarshaller, a non-empty invalid
value produces an error and the empty value produces the empty config. -/
theorem newConfig_error_iff_witness :
    (∃ e, NewConfig (fun s => if s = "[]" then .ok [] else .error "invalid character")
        "invalid json" = .error e) ∧
    NewConfig (fun s => if s = "[]" then .ok [] else .error "invalid character") ""
      = .ok { Scrapers := [] } :=
  ⟨(newConfig_error_iff _ "invalid json").1.mpr
      ⟨by decide, "invalid character", if_neg (by decide)⟩,
   (newConfig_error_iff _ "").2⟩

/-! ## Claims about `Initialize` -/

/-- The probe `CreateScraper` yields on a known-kind spec (for stating what
`Initialize` accumulates). -/
def builtScraper (c : HealthcheckScraper) : CloudflaredTunnelScraper :=
  NewCloudflaredTunnelScraper c.ScrapeURL c.PingURL c.ScrapeIntervalSeconds

theorem initializeLoop_all_known (specs : List HealthcheckScraper) :
    ∀ acc : List CloudflaredTunnelScraper,
    (∀ c ∈ specs, c.«Type» = "cloudflared-tunnel-connector") →
    initializeLoop acc specs = (acc ++ specs.map builtScraper, none) := by
  induction specs with
  | nil => intro acc _; simp [initializeLoop]
  | cons c rest ih =>
      intro acc hall
      have hc : c.«Type» = "cloudflared-tunnel-connector" :=
        hall c (List.mem_cons_self c rest)
      have hrest : ∀ d ∈ rest, d.«Type» = "cloudflared-tunnel-connector" :=
        fun d hd => hall d (List.mem_cons_of_mem c hd)
      simp only [initializeLoop, CreateScraper, if_pos hc]
      rw [ih (acc ++ [NewCloudflaredTunnelScraper c.ScrapeURL c.PingURL
        c.ScrapeIntervalSeconds]) hrest]
      simp [builtScraper]

theorem initializeLoop_first_unknown (pre : List HealthcheckScraper)
    (bad : HealthcheckScraper) (rest : List HealthcheckScraper) :
    ∀ acc : List CloudflaredTunnelScraper,
    (∀ c ∈ pre, c.«Type» = "cloudflared-tunnel-connector") →
    bad.«Type» ≠ "cloudflared-tunnel-connector" →
    initializeLoop acc (pre ++ bad :: rest)
      = (acc ++ pre.map builtScraper,
         some ("failed to create scraper " ++ bad.«Type» ++ ": "
           ++ ("unknown scraper type: " ++ bad.«Type»))) := by
  induction pre with
  | nil =>
      intro acc _ hbad
      simp [initializeLoop, CreateScraper, if_neg hbad]
  | cons c pre ih =>
      intro acc hall hbad
      have hc : c.«Type» = "cloudflared-tunnel-connector" :=
        hall c (List.mem_cons_self c pre)
      have hpre : ∀ d ∈ pre, d.«Type» = "cloudflared-tunnel-connector" :=
        fun d hd => hall d (List.mem_cons_of_mem c hd)
      simp only [List.cons_append, initializeLoop, CreateScraper, if_pos hc]
      rw [show pre.append (bad :: rest) = pre ++ bad :: rest from rfl,
        ih (acc ++ [NewCloudflaredTunnelScraper c.ScrapeURL c.PingURL
          c.ScrapeIntervalSeconds]) hpre hbad]
      simp [builtScraper]

/-- The spec used by the repository's own success tests. -/
def goodSpec : HealthcheckScraper :=
  ⟨"cloudflared-tunnel-connector", "http://localhost:8080/ready",
   "http://localhost:8081/ping", 120⟩

/-- The spec used by the repository's unknown-kind tests. -/
def badSpec : HealthcheckScraper :=
  ⟨"unknown-scraper-type", "http://localhost:8082/ready",
   "http://localhost:8083/ping", 0⟩

/-- C5 counterexample: on the list `[goodSpec, badSpec]`, `Initialize`
propagates the build error, yet the manager's probe set is left holding
exactly the one probe built before the failing spec — neither all probes
nor none. -/
theorem initialize_partial_commit_cex :
    (Initialize [goodSpec, badSpec]).2
      = some "failed to create scraper unknown-scraper-type: unknown scraper type: unknown-scraper-type" ∧
    (Initialize [goodSpec, badSpec]).1 = [builtScraper goodSpec] ∧
    (Initialize [goodSpec, badSpec]).1 ≠ [] ∧
    (Initialize [goodSpec, badSpec]).1.length ≠ [goodSpec, badSpec].length := by
  refine ⟨rfl, rfl, by decide, by decide⟩

/-- C5 amended: `Initialize` builds one probe per spec and succeeds when
every spec's kind is known; on the first unknown-kind spec it stops and
propagates the error, leaving the probe set holding exactly the probes
built from the specs before the failing one (later specs are not
processed). -/
theorem initialize_all_or_stops_early (specs : List HealthcheckScraper) :
    ((∀ c ∈ specs, c.«Type» = "cloudflared-tunnel-connector") →
      (Initialize specs).2 = none ∧
      (Initialize specs).1 = specs.map builtScraper) ∧
    (∀ pre bad rest, specs = pre ++ bad :: rest →
      (∀ c ∈ pre, c.«Type» = "cloudflared-tunnel-connector") →
      bad.«Type» ≠ "cloudflared-tunnel-connector" →
      (Initialize specs).2.isSome = true ∧
      (Initialize specs).1 = pre.map builtScraper) := by
  constructor
  · intro hall
    rw [Initialize, initializeLoop_all_known specs [] hall]
    simp
  · intro pre bad rest hspecs hpre hbad
    rw [Initialize, hspecs, initializeLoop_first_unknown pre bad rest [] hpre hbad]
    simp

/-- C5 witness (for the amended claim): a one-good-spec list initialises
fully; a list starting with the unknown-kind spec commits no probe. -/
theorem initialize_all_or_stops_early_witness :
    ((Initialize [goodSpec]).2 = none ∧
      (Initialize [goodSpec]).1 = [goodSpec].map builtScraper) ∧
    ((Initialize [badSpec]).2.isSome = true ∧
      (Initialize [badSpec]).1 = List.map builtScraper []) :=
  ⟨(initialize_all_or_stops_early [goodSpec]).1 (by decide),
   (initialize_all_or_stops_early [badSpec]).2 [] badSpec [] rfl (by simp) (by decide)⟩

/-! ## Claims about `Start` / `Stop` scheduling -/

/-- The reachable state exhibiting C6's failure: signal raised, loop
goroutine exited, `Stop` returned — while the single ticker goroutine still
sits at its `select`, not exited. -/
def c6State : MgrState :=
  ⟨true, 0, false, [TickerState.idle], true⟩

/-- C6 counterexample: with one probe, after `close(stopChan)` the loop
goroutine (the only one on the wait group) can exit and `wg.Wait()` can
return — so `Stop()` returns while the per-probe scheduling goroutine has
not yet observed the signal, contradicting "returns only after every
per-probe scheduling task has observed the signal and exited". -/
theorem stop_before_ticker_exit_cex :
    Reaches (startState 1) c6State ∧
    c6State.stopReturned = true ∧
    c6State.tickers = [TickerState.idle] ∧
    TickerState.idle ≠ TickerState.exited := by
  refine ⟨?_, rfl, rfl, by decide⟩
  have h1 : MgrStep .closeStop (startState 1)
      (⟨true, 1, true, [TickerState.idle], false⟩ : MgrState) :=
    MgrStep.closeStop rfl
  have h2 : MgrStep .loopObserveStop
      (⟨true, 1, true, [TickerState.idle], false⟩ : MgrState)
      (⟨true, 0, false, [TickerState.idle], false⟩ : MgrState) :=
    MgrStep.loopObserveStop rfl rfl
  have h3 : MgrStep .stopReturn
      (⟨true, 0, false, [TickerState.idle], false⟩ : MgrState) c6State :=
    MgrStep.stopReturn rfl rfl rfl
  exact .step h1 (.step h2 (.step h3 .refl))

/-- C6 amended: a single `Stop()` after `Start()` raises the shared signal
and cannot deadlock — from the post-`Start` state an execution always
exists in which `Stop` returns and every scheduling goroutine winds down —
and `Stop` returns only after the join barrier (which counts only the
`healthcheckLoop` goroutine, not the per-probe ticker goroutines) reaches
zero, i.e. only after the signal was raised and the loop goroutine exited;
per-probe goroutines may still be running at that point. -/
theorem stop_join_semantics (n : Nat) (s : MgrState)
    (h : Reaches (startState n) s) :
    (s.stopReturned = true →
      s.stopClosed = true ∧ s.loopAlive = false ∧ s.wgCount = 0) ∧
    Reaches (startState n) (stoppedState n) := by
  constructor
  · intro hr
    obtain ⟨_, h2, h3⟩ := reaches_stopInv h (stopInv_start n)
    obtain ⟨hcl, hla⟩ := h3 hr
    exact ⟨hcl, hla, (h2 hla).1⟩
  · exact reaches_stopped n

/-- C6 witness (amended claim), at `n = 2` probes and the fully stopped
state, which is reachable, satisfies the join conditions, and is the
endpoint of a deadlock-free shutdown execution. -/
theorem stop_join_semantics_witness :
    ((stoppedState 2).stopReturned = true →
      (stoppedState 2).stopClosed = true ∧ (stoppedState 2).loopAlive = false ∧
      (stoppedState 2).wgCount = 0) ∧
    Reaches (startState 2) (stoppedState 2) :=
  stop_join_semantics 2 (stoppedState 2) (reaches_stopped 2)

/-- The reachable state exhibiting C7's failure: one probe whose ticker
goroutine is inside a synchronous `runSingleHealthcheck` call. -/
def c7State : MgrState :=
  ⟨false, 1, true, [TickerState.busy], false⟩

/-- C7 counterexample: a tick enters `runSingleHealthcheck` synchronously,
and in the resulting reachable state the ticking goroutine is blocked on
the check's outcome: it can neither take another tick nor observe the stop
signal (its only step is `checkDone`) — contradicting "dispatches a
bounded-duration check asynchronously and moves on". -/
theorem tick_blocks_ticking_task_cex :
    Reaches (startState 1) c7State ∧
    tickEnabled c7State 0 = false ∧
    stopObsEnabled c7State 0 = false ∧
    c7State.tickers.get? 0 = some TickerState.busy := by
  refine ⟨?_, rfl, rfl, rfl⟩
  have h1 : MgrStep (.tick 0) (startState 1) c7State :=
    MgrStep.tick rfl rfl
  exact .step h1 .refl

/-- C7 amended: schedules are independent *across* probes — putting probe
`i`'s goroutine into a (possibly hung) check changes nothing about whether
probe `j ≠ i` can tick or observe stop — but *within* a probe each tick
runs its check synchronously: while probe `i` is busy its own goroutine
can neither tick again nor observe the stop signal, and its one available
step is the check completing (bounded by the 30-second per-check
deadline). -/
theorem probe_schedule_independence (s : MgrState) (i j : Nat) (hij : i ≠ j) :
    (tickEnabled { s with tickers := s.tickers.set i TickerState.busy } j
      = tickEnabled s j) ∧
    (stopObsEnabled { s with tickers := s.tickers.set i TickerState.busy } j
      = stopObsEnabled s j) ∧
    (s.tickers.get? i = some TickerState.busy →
      tickEnabled s i = false ∧ stopObsEnabled s i = false ∧
      ∃ t, MgrStep (.checkDone i) s t) := by
  refine ⟨?_, ?_, fun hb => ?_⟩
  · simp [tickEnabled, List.getElem?_set_ne hij]
  · simp [stopObsEnabled, List.getElem?_set_ne hij]
  · have hb2 := hb
    rw [List.get?_eq_getElem?] at hb2
    exact ⟨by simp [tickEnabled, hb2], by simp [stopObsEnabled, hb2],
      ⟨_, MgrStep.checkDone hb⟩⟩

/-- C7 witness (amended claim): two probes, probe 0 hung mid-check — probe
1's tick- and stop-enabledness are untouched, while probe 0's own goroutine
is reduced to finishing its check. -/
theorem probe_schedule_independence_witness :
    (tickEnabled { (⟨false, 1, true, [TickerState.busy, TickerState.idle], false⟩ : MgrState) with
        tickers := [TickerState.busy, TickerState.idle].set 0 TickerState.busy } 1
      = tickEnabled ⟨false, 1, true, [TickerState.busy, TickerState.idle], false⟩ 1) ∧
    (stopObsEnabled { (⟨false, 1, true, [TickerState.busy, TickerState.idle], false⟩ : MgrState) with
        tickers := [TickerState.busy, TickerState.idle].set 0 TickerState.busy } 1
      = stopObsEnabled ⟨false, 1, true, [TickerState.busy, TickerState.idle], false⟩ 1) ∧
    ([TickerState.busy, TickerState.idle].get? 0 = some TickerState.busy →
      tickEnabled ⟨false, 1, true, [TickerState.busy, TickerState.idle], false⟩ 0 = false ∧
      stopObsEnabled ⟨false, 1, true, [TickerState.busy, TickerState.idle], false⟩ 0 = false ∧
      ∃ t, MgrStep (.checkDone 0)
        (⟨false, 1, true, [TickerState.busy, TickerState.idle], false⟩ : MgrState) t) :=
  probe_schedule_independence
    ⟨false, 1, true, [TickerState.busy, TickerState.idle], false⟩ 0 1 (by decide)

end Healthcheck
